import Mathlib

/-!
Shallow embedding of `src/main.go` (a concurrent weather aggregator).

Modelling conventions:
* Go `float64` values are embedded as `ℚ` (exact rational arithmetic stands in
  for IEEE-754 doubles; every concrete constant in the claims is exactly
  representable in both).
* A Go `error` value is an opaque `Err` (a string).  A provider call returning
  `(v, err)` is embedded as `Except Err ℚ`: every provider implementation in
  `main.go` returns the value `0` alongside any non-nil error, so the pair
  carries no more information than the sum.
* Effects (HTTP requests, JSON decoding) are embedded by passing their outcome
  as an explicit argument to the function that performs them.
* The two buffered channels `temps` and `errs` together with the
  `select`-driven receive loop are embedded by an `arrival` list: the sequence
  of events the loop receives, in the order it receives them.  Each spawned
  goroutine contributes exactly one event; scheduling nondeterminism makes the
  arrival sequence an arbitrary permutation of the per-goroutine events, so
  theorems quantify over all such permutations.
-/

/-- Opaque Go `error` values; the aggregator never inspects them. -/
abbrev Err := String

/-- Go struct `Coord` (main.go lines 16-19). -/
structure Coord where
  Lon : ℚ
  Lat : ℚ
deriving DecidableEq

/-- Go `FahrenheitToCelsius` (main.go lines 33-36): `(input_num - 32) * 5 / 9`. -/
def FahrenheitToCelsius (input_num : ℚ) : ℚ :=
  (input_num - 32) * 5 / 9

/-- Outcome of one provider query: the `(float64, error)` result of
`p.temperature(city)`, with the convention that a non-nil error comes with
value `0` (true of every provider in `main.go`). -/
abbrev Outcome := Except Err ℚ

/-- A provider (the `weatherProvider` interface, main.go lines 12-14), with its
network effects abstracted into a function from the city to the outcome. -/
abbrev Provider := String → Outcome

/-- The `(float64, error)` pair a provider's `temperature` method returns, as
Go code observes it: `(v, nil)` on success, `(0, err)` on failure. -/
def Outcome.toPair : Outcome → ℚ × Option Err
  | .ok v => (v, none)
  | .error e => (0, some e)

/-- One message sent by a spawned goroutine (main.go lines 139-146): either a
temperature sent on the `temps` channel or an error sent on the `errs`
channel. -/
inductive Event where
  | temp (t : ℚ)
  | fail (e : Err)
deriving DecidableEq

/-- True for messages sent on the `temps` channel. -/
def Event.isTemp : Event → Bool
  | .temp _ => true
  | .fail _ => false

/-- The temperature carried by a `temps` message (junk value `0` on `errs`
messages, used only on all-success streams). -/
def Event.payload : Event → ℚ
  | .temp t => t
  | .fail _ => 0

/-- The single event a goroutine sends for outcome `o` (main.go lines 140-145):
`err != nil` sends `err` on `errs`, otherwise sends `k` on `temps`. -/
def taskEvent (o : Outcome) : Event :=
  match o with
  | .ok k => .temp k
  | .error e => .fail e

/-- The events produced by the goroutines spawned on lines 138-147: one per
provider, each calling `p.temperature(city)` on the shared `city`. -/
def launchEvents (w : List Provider) (city : String) : List Event :=
  w.map (fun p => taskEvent (p city))

/-- The receive loop of main.go lines 149-159: exactly `n = len(w)` iterations
(`for i := 0; i < len(w); i++`); a `temps` message adds to `sum`, an `errs`
message returns that error at once.  The `(n+1, [])` case would block forever
in Go and is unreachable when the arrival stream holds one event per spawned
goroutine. -/
def receiveLoop : Nat → List Event → ℚ → Except Err ℚ
  | 0, _, sum => .ok sum
  | _ + 1, [], sum => .ok sum
  | n + 1, .temp t :: rest, sum => receiveLoop n rest (sum + t)
  | _ + 1, .fail e :: _, _ => .error e

/-- Go `multiWeatherProvider.temperature` (main.go lines 134-162): spawns one
goroutine per provider, consumes `len(w)` events from the two channels in
arrival order, returns `(0, err)` on the first error consumed and otherwise
`(sum / len(w), nil)`. -/
def multiWeatherProvider.temperature (w : List Provider) (city : String)
    (arrival : List Event) : ℚ × Option Err :=
  match receiveLoop w.length arrival 0 with
  | .error e => (0, some e)
  | .ok sum => (sum / (w.length : ℚ), none)

/-- The first error in an arrival stream, if any. -/
def firstFailure : List Event → Option Err
  | [] => none
  | .temp _ :: rest => firstFailure rest
  | .fail e :: _ => some e

/-- Capacity of the `temps` channel: `make(chan float64, len(w))`
(main.go line 135). -/
def tempsCapacity (w : List Provider) : Nat := w.length

/-- Capacity of the `errs` channel: `make(chan error, len(w))`
(main.go line 136). -/
def errsCapacity (w : List Provider) : Nat := w.length

/-- Total number of sends performed on the `temps` channel across all spawned
goroutines of one aggregation call. -/
def tempsSends (w : List Provider) (city : String) : Nat :=
  ((launchEvents w city).filter Event.isTemp).length

/-- Total number of sends performed on the `errs` channel across all spawned
goroutines of one aggregation call. -/
def errsSends (w : List Provider) (city : String) : Nat :=
  ((launchEvents w city).filter (fun e => !e.isTemp)).length

/-- Go `openWeatherMap.coordinates` (main.go lines 67-87).  `httpGet` is the
outcome of the `http.Get` call, `decode` the outcome of decoding the body into
the coordinate struct.  Note both failure branches return `Coord\x7b\x7d, nil`
(lines 70 and 83): the error is dropped. -/
def openWeatherMap.coordinates (httpGet : Except Err Unit)
    (decode : Except Err Coord) : Coord × Option Err :=
  match httpGet with
  | .error _ => (⟨0, 0⟩, none)
  | .ok _ =>
    match decode with
    | .error _ => (⟨0, 0⟩, none)
    | .ok c => (c, none)

/-- Go `openWeatherMap.temperature` (main.go lines 89-110): on success returns
the decoded Kelvin reading minus `273.15`, i.e. degrees Celsius. -/
def openWeatherMap.temperature (httpGet : Except Err Unit)
    (decode : Except Err ℚ) : ℚ × Option Err :=
  match httpGet with
  | .error e => (0, some e)
  | .ok _ =>
    match decode with
    | .error e => (0, some e)
    | .ok kelvin => (kelvin - 273.15, none)

/-- Go `forecastIo.temperature` (main.go lines 38-65): first looks up
coordinates via `openWeatherMap.coordinates` (returning early on a non-nil
lookup error), then performs its own `http.Get` (whose URL is built from the
returned coordinates) and decode, converting the decoded Fahrenheit reading
with `FahrenheitToCelsius`. -/
def forecastIo.temperature (coordHttp : Except Err Unit)
    (coordDecode : Except Err Coord) (httpGet : Except Err Unit)
    (decode : Except Err ℚ) : ℚ × Option Err :=
  match openWeatherMap.coordinates coordHttp coordDecode with
  | (_, some e) => (0, some e)
  | (_, none) =>
    match httpGet with
    | .error e => (0, some e)
    | .ok _ =>
      match decode with
      | .error e => (0, some e)
      | .ok f => (FahrenheitToCelsius f, none)

/-- Go `weatherUnderground.temperature` (main.go lines 112-132): on success
returns the decoded `temp_c` field unchanged (line 131 returns the `err` from
line 113, which is nil on that path). -/
def weatherUnderground.temperature (httpGet : Except Err Unit)
    (decode : Except Err ℚ) : ℚ × Option Err :=
  match httpGet with
  | .error e => (0, some e)
  | .ok _ =>
    match decode with
    | .error e => (0, some e)
    | .ok celsius => (celsius, none)

/-- Splits a character list at the first occurrence of `sep`, returning the
parts before and after it, or `none` when `sep` does not occur. -/
def splitFirst (sep : Char) : List Char → Option (List Char × List Char)
  | [] => none
  | c :: cs =>
    if c = sep then some ([], cs)
    else
      match splitFirst sep cs with
      | none => none
      | some (l, r) => some (c :: l, r)

/-- Go `strings.SplitN(s, sep, n)` for `n > 0` and a one-character separator:
at most `n` substrings, the last holding the unsplit remainder. -/
def goSplitN (sep : Char) : List Char → Nat → List (List Char)
  | cs, 0 => [cs]
  | cs, 1 => [cs]
  | cs, n + 2 =>
    match splitFirst sep cs with
    | none => [cs]
    | some (l, r) => l :: goSplitN sep r (n + 1)

/-- The city extraction shared by the `weather` and `coordinates` handlers
(main.go lines 178 and 200): `strings.SplitN(r.URL.Path, "/", 3)[2]`.  Every
path routed to these handlers starts with two slashes, so the index-2 element
exists; `getD` supplies a default only for unrouted paths. -/
def handlerCity (path : String) : String :=
  ⟨(goSplitN '/' path.toList 3).getD 2 []⟩

/-! ### Helper lemmas about the receive loop -/

lemma receiveLoop_temps (us : List ℚ) :
    ∀ s : ℚ, receiveLoop us.length (us.map Event.temp) s = .ok (s + us.sum) := by
  induction us with
  | nil => intro s; simp [receiveLoop]
  | cons u us ih =>
    intro s
    simp only [List.map_cons, List.length_cons, receiveLoop, ih, List.sum_cons]
    ring_nf

lemma eq_map_temp_of_all_temp (l : List Event) (h : ∀ e ∈ l, e.isTemp) :
    l = (l.map Event.payload).map Event.temp := by
  induction l with
  | nil => rfl
  | cons e l ih =>
    have he : e.isTemp := h e (List.mem_cons_self e l)
    have hl : ∀ x ∈ l, x.isTemp := fun x hx => h x (List.mem_cons_of_mem e hx)
    cases e with
    | temp t => simpa [Event.payload] using ih hl
    | fail err => simp [Event.isTemp] at he

/-- On an all-success run the aggregator computes the mean of the readings:
the key lemma shared by several claim theorems. -/
lemma temperature_all_ok (w : List Provider) (city : String) (vs : List ℚ)
    (hw : w.map (fun p => p city) = vs.map Except.ok)
    (arrival : List Event) (hperm : List.Perm arrival (launchEvents w city)) :
    multiWeatherProvider.temperature w city arrival
      = (vs.sum / (vs.length : ℚ), none) := by
  have hlaunch : launchEvents w city = vs.map Event.temp := by
    have h1 : launchEvents w city = (w.map (fun p => p city)).map taskEvent := by
      rw [List.map_map]; rfl
    rw [h1, hw, List.map_map]
    rfl
  rw [hlaunch] at hperm
  have hall : ∀ e ∈ arrival, e.isTemp := by
    intro e he
    have := hperm.mem_iff.mp he
    simp only [List.mem_map] at this
    obtain ⟨t, _, rfl⟩ := this
    rfl
  have harr : arrival = (arrival.map Event.payload).map Event.temp :=
    eq_map_temp_of_all_temp arrival hall
  have hus : List.Perm (arrival.map Event.payload) vs := by
    have h2 := hperm.map Event.payload
    rw [List.map_map] at h2
    have h3 : List.map (Event.payload ∘ Event.temp) vs = vs := by
      simp [Function.comp_def, Event.payload]
    rwa [h3] at h2
  have hlenw : w.length = vs.length := by
    have := congrArg List.length hw
    simpa using this
  have hlenus : (arrival.map Event.payload).length = vs.length := by
    have := hperm.length_eq
    simpa using this
  unfold multiWeatherProvider.temperature
  rw [harr, hlenw, ← hlenus, receiveLoop_temps]
  rw [hus.sum_eq, hlenus]
  simp

/-- On an arrival stream whose first error is preceded only by successes and
arrives within the loop's `len(w)` iterations, the loop returns that error. -/
lemma receiveLoop_first_fail (pre : List Event) :
    ∀ (n : Nat) (rest : List Event) (e : Err) (s : ℚ),
      (∀ ev ∈ pre, ev.isTemp) → pre.length < n →
      receiveLoop n (pre ++ Event.fail e :: rest) s = .error e := by
  induction pre with
  | nil =>
    intro n rest e s _ hn
    match n, hn with
    | m + 1, _ => rfl
  | cons ev pre ih =>
    intro n rest e s hall hn
    have hev : ev.isTemp := hall ev (List.mem_cons_self ev pre)
    cases ev with
    | fail _ => simp [Event.isTemp] at hev
    | temp t =>
      match n, hn with
      | m + 1, hn =>
        simp only [List.cons_append, receiveLoop]
        exact ih m rest e (s + t)
          (fun x hx => hall x (List.mem_cons_of_mem _ hx))
          (Nat.lt_of_succ_lt_succ hn)

/-- When the receive loop returns an error, it is the first error of the
arrival stream. -/
lemma receiveLoop_error_firstFailure :
    ∀ (n : Nat) (arrival : List Event) (s : ℚ) (e : Err),
      receiveLoop n arrival s = .error e → firstFailure arrival = some e := by
  intro n
  induction n with
  | zero => intro arrival s e h; simp [receiveLoop] at h
  | succ m ih =>
    intro arrival s e h
    match arrival with
    | [] => simp [receiveLoop] at h
    | .temp t :: rest =>
      simp only [receiveLoop] at h
      exact ih rest (s + t) e h
    | .fail e' :: rest =>
      simp only [receiveLoop, Except.error.injEq] at h
      simp [firstFailure, h]

lemma length_filter_add_length_filter_not {α : Type} (p : α → Bool) (l : List α) :
    (l.filter p).length + (l.filter (fun x => !p x)).length = l.length := by
  induction l with
  | nil => rfl
  | cons a l ih =>
    cases h : p a <;> simp [List.filter_cons, h] <;> omega

/-! ### Claim theorems -/

/-- C1: for every non-empty provider set whose members all succeed with
values `vs`, and every arrival order of their result events, the aggregator
returns a nil error and the arithmetic mean `vs.sum / vs.length`. -/
theorem C1_all_success_mean (w : List Provider) (city : String) (vs : List ℚ)
    (hne : w ≠ []) (hw : w.map (fun p => p city) = vs.map Except.ok)
    (arrival : List Event) (hperm : List.Perm arrival (launchEvents w city)) :
    multiWeatherProvider.temperature w city arrival
      = (vs.sum / (vs.length : ℚ), none) :=
  temperature_all_ok w city vs hw arrival hperm

/-- C1 witness: providers reading 20.0, 22.0, 24.0 yield 22.0 with nil
error. -/
theorem C1_all_success_mean_witness :
    multiWeatherProvider.temperature
      [fun _ => Except.ok 20, fun _ => Except.ok 22, fun _ => Except.ok 24]
      "london" [Event.temp 20, Event.temp 22, Event.temp 24] = (22, none) := by
  have h := C1_all_success_mean
    [fun _ => Except.ok 20, fun _ => Except.ok 22, fun _ => Except.ok 24]
    "london" [20, 22, 24] (by simp) rfl
    [Event.temp 20, Event.temp 22, Event.temp 24] (List.Perm.refl _)
  refine h.trans ?_
  simp only [List.sum_cons, List.sum_nil, List.length_cons, List.length_nil,
    Prod.mk.injEq]
  norm_num

/-- C2: as soon as the aggregator consumes a failure event (preceded only by
success events, within its `len(w)` receive iterations) it returns that
failure at once: the result is `(0, err)` whatever events would arrive
afterwards (`rest` is arbitrary and unread). -/
theorem C2_first_failure_wins (w : List Provider) (city : String)
    (pre rest : List Event) (e : Err)
    (hpre : ∀ ev ∈ pre, ev.isTemp) (hlen : pre.length < w.length) :
    multiWeatherProvider.temperature w city (pre ++ Event.fail e :: rest)
      = (0, some e) := by
  unfold multiWeatherProvider.temperature
  rw [receiveLoop_first_fail pre w.length rest e 0 hpre hlen]

/-- C2 witness: a failing provider and a slower succeeding one; the failure
is returned with the success event still pending. -/
theorem C2_first_failure_wins_witness :
    multiWeatherProvider.temperature
      [fun _ => Except.error "boom", fun _ => Except.ok 24] "x"
      ([] ++ Event.fail "boom" :: [Event.temp 24]) = (0, some "boom") :=
  C2_first_failure_wins
    [fun _ => Except.error "boom", fun _ => Except.ok 24] "x"
    [] [Event.temp 24] "boom" (by intro ev h; simp at h) (by decide)

/-- C3 counterexample: on the empty provider set the aggregator performs no
configuration check at all: it returns a NIL error (with the degenerate
quotient `0 / 0`, which is `0` in the rational model and NaN in Go's
float64), not the non-nil "no providers configured" error the claim
requires. -/
theorem C3_empty_set_counterexample :
    multiWeatherProvider.temperature [] "" [] = (0, none) := by
  simp [multiWeatherProvider.temperature, receiveLoop]

/-- C3 amended: for the empty provider set the aggregator launches no query
and consumes no events, and returns the degenerate quotient `0 / 0` (NaN in
Go's float64, `0` in the rational model) together with a nil error; it does
not panic, but it also performs no "no providers configured" rejection. -/
theorem C3_empty_set_amended (city : String) (arrival : List Event) :
    multiWeatherProvider.temperature [] city arrival = (0, none) := by
  simp [multiWeatherProvider.temperature, receiveLoop]

/-- C4: whenever the aggregator fails, its error is exactly the first failure
event of the arrival stream, passed through verbatim, the error is non-nil
(`some e`) and the numeric value is 0. -/
theorem C4_failure_verbatim (w : List Provider) (city : String)
    (arrival : List Event) (e : Err)
    (h : (multiWeatherProvider.temperature w city arrival).2 = some e) :
    multiWeatherProvider.temperature w city arrival = (0, some e)
      ∧ firstFailure arrival = some e := by
  rcases hcase : receiveLoop w.length arrival 0 with e' | s
  · have h1 : multiWeatherProvider.temperature w city arrival = (0, some e') := by
      unfold multiWeatherProvider.temperature
      rw [hcase]
    rw [h1] at h
    simp only [Option.some.injEq] at h
    subst h
    exact ⟨h1, receiveLoop_error_firstFailure w.length arrival 0 e' hcase⟩
  · have h1 : multiWeatherProvider.temperature w city arrival
        = (s / (w.length : ℚ), none) := by
      unfold multiWeatherProvider.temperature
      rw [hcase]
    rw [h1] at h
    simp at h

/-- C4 witness: a concrete failing aggregation whose error is the first (and
only) failure event, returned verbatim with value 0. -/
theorem C4_failure_verbatim_witness :
    multiWeatherProvider.temperature
        [fun _ => Except.ok 20, fun _ => Except.error "down"] "x"
        [Event.temp 20, Event.fail "down"] = (0, some "down")
      ∧ firstFailure [Event.temp 20, Event.fail "down"] = some "down" :=
  C4_failure_verbatim
    [fun _ => Except.ok 20, fun _ => Except.error "down"] "x"
    [Event.temp 20, Event.fail "down"] "down" (by decide)

/-- C5: a single-provider aggregation is a pass-through: it returns exactly
the `(value, error)` pair of that provider's own query (the mean of one value
on success, the verbatim error with value 0 on failure). -/
theorem C5_single_provider_passthrough (p : Provider) (city : String) :
    multiWeatherProvider.temperature [p] city [taskEvent (p city)]
      = (p city).toPair := by
  cases h : p city with
  | ok v =>
    simp [multiWeatherProvider.temperature, taskEvent, h, receiveLoop,
      Outcome.toPair]
  | error e =>
    simp [multiWeatherProvider.temperature, taskEvent, h, receiveLoop,
      Outcome.toPair]

/-- C6: permuting an all-success provider set does not change the returned
value: two provider lists whose readings are permutations of each other give
identical results, for any arrival orders of their events. -/
theorem C6_order_independence (w w' : List Provider) (city : String)
    (vs vs' : List ℚ) (hvv : List.Perm vs vs')
    (hw : w.map (fun p => p city) = vs.map Except.ok)
    (hw' : w'.map (fun p => p city) = vs'.map Except.ok)
    (arrival arrival' : List Event)
    (hperm : List.Perm arrival (launchEvents w city))
    (hperm' : List.Perm arrival' (launchEvents w' city)) :
    multiWeatherProvider.temperature w city arrival
      = multiWeatherProvider.temperature w' city arrival' := by
  rw [temperature_all_ok w city vs hw arrival hperm,
    temperature_all_ok w' city vs' hw' arrival' hperm',
    hvv.sum_eq, hvv.length_eq]

/-- C6 witness: swapping two successful providers leaves the result
unchanged. -/
theorem C6_order_independence_witness :
    multiWeatherProvider.temperature
        [fun _ => Except.ok 20, fun _ => Except.ok 22] "x"
        [Event.temp 20, Event.temp 22]
      = multiWeatherProvider.temperature
        [fun _ => Except.ok 22, fun _ => Except.ok 20] "x"
        [Event.temp 22, Event.temp 20] :=
  C6_order_independence
    [fun _ => Except.ok 20, fun _ => Except.ok 22]
    [fun _ => Except.ok 22, fun _ => Except.ok 20] "x"
    [20, 22] [22, 20] (List.Perm.swap 22 20 [])
    rfl rfl
    [Event.temp 20, Event.temp 22] [Event.temp 22, Event.temp 20]
    (List.Perm.refl _) (List.Perm.refl _)

/-- C7: every provider normalizes to Celsius before returning: openWeatherMap
returns its Kelvin reading minus 273.15, forecastIo maps its Fahrenheit
reading through `(f - 32) * 5 / 9`, and weatherUnderground returns its
`temp_c` field unchanged. -/
theorem C7_unit_normalization :
    (∀ kelvin : ℚ,
        openWeatherMap.temperature (Except.ok ()) (Except.ok kelvin)
          = (kelvin - 273.15, none))
  ∧ (∀ (ch : Except Err Unit) (cd : Except Err Coord) (f : ℚ),
        forecastIo.temperature ch cd (Except.ok ()) (Except.ok f)
          = ((f - 32) * 5 / 9, none))
  ∧ (∀ c : ℚ,
        weatherUnderground.temperature (Except.ok ()) (Except.ok c)
          = (c, none)) := by
  refine ⟨fun kelvin => rfl, fun ch cd f => ?_, fun c => rfl⟩
  cases ch <;> cases cd <;> rfl

/-- C8: both result channels are created with capacity `len(w)`; the spawned
tasks together send exactly one event each (one per provider), and the total
sends on each channel never exceed its capacity, so no producer can block on
its send even if the aggregator returns early and abandons the channels. -/
theorem C8_channel_capacity (w : List Provider) (city : String) :
    (launchEvents w city).length = w.length
    ∧ tempsSends w city + errsSends w city = w.length
    ∧ tempsSends w city ≤ tempsCapacity w
    ∧ errsSends w city ≤ errsCapacity w := by
  have hlen : (launchEvents w city).length = w.length := by
    simp [launchEvents]
  refine ⟨hlen, ?_, ?_, ?_⟩
  · unfold tempsSends errsSends
    rw [length_filter_add_length_filter_not Event.isTemp (launchEvents w city),
      hlen]
  · unfold tempsSends tempsCapacity
    calc ((launchEvents w city).filter Event.isTemp).length
        ≤ (launchEvents w city).length := List.length_filter_le _ _
      _ = w.length := hlen
  · unfold errsSends errsCapacity
    calc ((launchEvents w city).filter (fun e => !e.isTemp)).length
        ≤ (launchEvents w city).length := List.length_filter_le _ _
      _ = w.length := hlen

/-- C9: `openWeatherMap.coordinates` returns a nil error on every path; when
its HTTP request or its JSON decode fails it returns the zero `Coord` with a
nil error, so `forecastIo.temperature` can never observe a coordinate-lookup
failure: its result is independent of the lookup's effect outcomes, and the
coordinates it proceeds with after a failed lookup are `(0, 0)`. -/
theorem C9_coordinates_error_swallowed :
    (∀ (httpGet : Except Err Unit) (decode : Except Err Coord),
        (openWeatherMap.coordinates httpGet decode).2 = none)
  ∧ (∀ (e : Err) (decode : Except Err Coord),
        openWeatherMap.coordinates (Except.error e) decode = (⟨0, 0⟩, none))
  ∧ (∀ e : Err,
        openWeatherMap.coordinates (Except.ok ()) (Except.error e)
          = (⟨0, 0⟩, none))
  ∧ (∀ (ch ch' : Except Err Unit) (cd cd' : Except Err Coord)
        (httpGet : Except Err Unit) (decode : Except Err ℚ),
        forecastIo.temperature ch cd httpGet decode
          = forecastIo.temperature ch' cd' httpGet decode) := by
  refine ⟨?_, ?_, ?_, ?_⟩
  · intro h d; cases h <;> cases d <;> rfl
  · intro e d; rfl
  · intro e; rfl
  · intro ch ch' cd cd' h d
    cases ch <;> cases ch' <;> cases cd <;> cases cd' <;> rfl

/-- C10: no component validates the location: both HTTP handlers extract the
city as the third `/`-separated path segment, which is the empty string for
paths like `/weather/`; the aggregator then launches every provider query with
that empty location and computes as usual rather than failing a precondition
check. -/
theorem C10_no_location_validation :
    handlerCity "/weather/" = ""
  ∧ handlerCity "/coordinates/" = ""
  ∧ (∀ w : List Provider,
      launchEvents w (handlerCity "/weather/")
        = w.map (fun p => taskEvent (p "")))
  ∧ (∀ v : ℚ,
      multiWeatherProvider.temperature [fun _ => Except.ok v]
        (handlerCity "/weather/") [Event.temp v] = (v, none)) := by
  refine ⟨by decide, by decide, ?_, ?_⟩
  · intro w
    have h : handlerCity "/weather/" = "" := by decide
    rw [h]
    rfl
  · intro v
    simp [multiWeatherProvider.temperature, receiveLoop]
